import Mathlib

/-!
Shallow embedding of the streaming-ingestion core of the `hass-navirec`
integration (files `custom_components/navirec/api.py`, `coordinator.py`,
`data.py`, `commands.py`, `const.py`), together with theorems settling the
frozen claims about its natural-language specification.

JSON scalar values are modelled by `JVal`; a decoded JSON object is an
association list `JObj` (insertion order preserved, lookup returns the first
binding, matching dict access for duplicate-free objects).
-/

namespace Navirec

/-- A JSON scalar value as it appears in stream payload fields. -/
inductive JVal where
  | s (v : String)
  | n (v : Int)
  | b (v : Bool)
  | null
deriving DecidableEq, Repr

/-- A decoded JSON object: association list of field name to scalar value. -/
abbrev JObj := List (String × JVal)

/-- Field access on a decoded object (`obj.get(key)` / `obj[key]`). -/
def jLookup (key : String) : JObj → Option JVal
  | [] => none
  | (k, v) :: rest => if k = key then some v else jLookup key rest

/-- Python truthiness of an `Optional[str]`: `None` and `""` are falsy. -/
def pyTruthyStr : Option String → Bool
  | none => false
  | some s => s ≠ ""

/- Section:
UUID extraction, from `data.py` (`UUID_PATTERN` / `extract_uuid_from_url`):
`re.search` for `[0-9a-f]{8}-[0-9a-f]{4}-[0-9a-f]{4}-[0-9a-f]{4}-[0-9a-f]{12}`,
returning the leftmost match or `None`. The pattern is of fixed length 36
with no alternation, so the leftmost match is the first position at which
the 36-character shape fits.
--------------------------------------------------------------------- -/

/-- Character class `[0-9a-f]` of the UUID pattern. -/
def isHexLower (c : Char) : Bool :=
  (decide ('0' ≤ c) && decide (c ≤ '9')) || (decide ('a' ≤ c) && decide (c ≤ 'f'))

/-- Whether character `c` at offset `j` fits the UUID pattern
(hyphens at offsets 8, 13, 18, 23; lowercase hex elsewhere). -/
def uuidCharOk (j : Nat) (c : Char) : Bool :=
  if j = 8 || j = 13 || j = 18 || j = 23 then c = '-' else isHexLower c

/-- Whether `cs` is exactly a 36-character UUID-shaped string. -/
def isUuid36 (cs : List Char) : Bool :=
  cs.length = 36 &&
    (List.range 36).all fun j =>
      match cs.get? j with
      | some c => uuidCharOk j c
      | none => false

/-- Leftmost 36-character UUID-shaped substring of a character list. -/
def findUuidFrom : List Char → Option (List Char)
  | [] => none
  | c :: rest =>
      if isUuid36 ((c :: rest).take 36) then some ((c :: rest).take 36)
      else findUuidFrom rest

/-- `data.py` `extract_uuid_from_url`: leftmost UUID-shaped substring of the
URL, or `None` when the pattern does not occur. -/
def extract_uuid_from_url (url : String) : Option String :=
  (findUuidFrom url.toList).map fun cs => String.mk cs

/- Section:
Vehicle state snapshots.
--------------------------------------------------------------------- -/

/-- Modelled from the spec: the pydantic `VehicleState` model lives in the
auto-generated `models.py`, which is absent from the sources; per §3 and §9
of the spec a snapshot is an open-ended bag of named scalar fields (vehicle
reference URL, `updated_at` revision token, arbitrary sensor readings), and
validation is permissive, keeping the fields as given. -/
structure VehicleState where
  fields : JObj
deriving DecidableEq, Repr

/-- `VehicleState.model_validate(data)`: permissive validation keeping the
field bag as-is. -/
def VehicleState.model_validate (data : JObj) : VehicleState := ⟨data⟩

/-- The snapshot's `vehicle` reference rendered as a string (`str(state.vehicle)`),
`none` when the field is absent or null (falsy). -/
def VehicleState.vehicleRef (st : VehicleState) : Option String :=
  match jLookup "vehicle" st.fields with
  | some (JVal.s v) => some v
  | _ => none

/-- `data.py` `get_vehicle_id_from_state`: when the state's vehicle reference
is present (truthy), extract the embedded UUID; otherwise `None`. -/
def get_vehicle_id_from_state (st : VehicleState) : Option String :=
  match st.vehicleRef with
  | some url => if url ≠ "" then extract_uuid_from_url url else none
  | none => none

/-- One decoded stream event as accessed by the dispatcher and the stream
iterator: `event.get("event")` (the discriminator, `none` when absent) and
`event.get("data", {})` (the nested data object, `[]` when absent). -/
structure StreamEvent where
  event : Option String
  data : JObj
deriving DecidableEq, Repr

/- Section:
Coordinator state and event handling, from `coordinator.py`.
`storeSaves` records each `Store.async_save` payload in order; `notifications`
counts `_async_notify_listeners` firings (`async_set_updated_data`).
--------------------------------------------------------------------- -/

/-- The coordinator's mutable state relevant to event handling: the vehicle
state table `data`, the cached watermark `_last_updated_at`, the sequence of
underlying store writes, the count of data-changed notifications, and the
`_initial_state_received` flag. -/
structure Coord where
  data : List (String × VehicleState)
  lastUpdatedAt : Option JVal
  storeSaves : List JVal
  notifications : Nat
  initialStateReceived : Bool
deriving DecidableEq, Repr

/-- Coordinator state after `__init__` (empty table, no watermark). -/
def Coord.init : Coord :=
  { data := [], lastUpdatedAt := none, storeSaves := [], notifications := 0,
    initialStateReceived := false }

/-- Dict assignment `self.data[vehicle_id] = state`: replace the binding for
the key if present, else append it. -/
def setKey (m : List (String × VehicleState)) (k : String) (v : VehicleState) :
    List (String × VehicleState) :=
  match m with
  | [] => [(k, v)]
  | (k0, v0) :: rest =>
      if k0 = k then (k, v) :: rest else (k0, v0) :: setKey rest k v

/-- Lookup in the vehicle state table (`self.data.get(vehicle_id)`). -/
def getKey (m : List (String × VehicleState)) (k : String) : Option VehicleState :=
  match m with
  | [] => none
  | (k0, v0) :: rest => if k0 = k then some v0 else getKey rest k

/-- `coordinator.py` `_async_update_stream_state`: when the new value differs
from the cached `_last_updated_at`, cache it and save it to the store;
otherwise do nothing. -/
def updateStreamState (c : Coord) (u : JVal) : Coord :=
  if c.lastUpdatedAt = some u then c
  else { c with lastUpdatedAt := some u, storeSaves := c.storeSaves ++ [u] }

/-- `coordinator.py` `get_vehicle_state`: point lookup in the table. -/
def Coord.get_vehicle_state (c : Coord) (vehicleId : String) : Option VehicleState :=
  getKey c.data vehicleId

/-- `coordinator.py` `_async_handle_event`: branch on the `event`
discriminator; for `vehicle_state` with non-empty data, validate the
snapshot, store it under its extracted vehicle id when one is resolvable
(notifying listeners), and advance/persist the watermark when the data
carries `updated_at`; `initial_state_sent` toggles the flag; `connected`,
`heartbeat`, `disconnected` and unknown discriminators only log. -/
def handleEvent (c : Coord) (ev : StreamEvent) : Coord :=
  if ev.event = some "vehicle_state" then
    if ev.data ≠ [] then
      let st := VehicleState.model_validate ev.data
      let c1 :=
        if pyTruthyStr (get_vehicle_id_from_state st) then
          match get_vehicle_id_from_state st with
          | some vid =>
              { c with data := setKey c.data vid st,
                       notifications := c.notifications + 1 }
          | none => c
        else c
      match jLookup "updated_at" ev.data with
      | some u => updateStreamState c1 u
      | none => c1
    else c
  else if ev.event = some "initial_state_sent" then
    { c with initialStateReceived := true }
  else c

/-- Fold of the handler over a list of events, in arrival order. -/
def handleEvents (c : Coord) (evs : List StreamEvent) : Coord :=
  evs.foldl handleEvent c

/- Section:
Stream client, from `api.py` (`NavirecStreamClient`) and `const.py`.
--------------------------------------------------------------------- -/

/-- `const.py` `STREAM_RECONNECT_MIN_DELAY` (seconds). -/
def STREAM_RECONNECT_MIN_DELAY : Nat := 1

/-- `const.py` `STREAM_RECONNECT_MAX_DELAY` (seconds). -/
def STREAM_RECONNECT_MAX_DELAY : Nat := 60

/-- `const.py` `STREAM_RECONNECT_MULTIPLIER`. -/
def STREAM_RECONNECT_MULTIPLIER : Nat := 2

/-- `str.rstrip("/")`: drop trailing slash characters. -/
def rstripSlash (s : String) : String :=
  String.mk (((s.toList.reverse.dropWhile fun c => c = '/')).reverse)

/-- The stream client's state (`NavirecStreamClient` attributes; the aiohttp
session is an external collaborator and `_response` is modelled by the flag
`hasResponse`). -/
structure StreamClient where
  apiUrl : String
  apiToken : String
  accountId : String
  hasResponse : Bool
  connected : Bool
  lastUpdatedAt : Option JVal
  reconnectDelay : Nat
  shouldStop : Bool
deriving DecidableEq, Repr

/-- `NavirecStreamClient.__init__(api_url, api_token, session, account_id)`:
strips trailing slashes from the URL and initialises `_response = None`,
`_connected = False`, `_last_updated_at = None`,
`_reconnect_delay = STREAM_RECONNECT_MIN_DELAY`, `_should_stop = False`.
The parameter list accepts no watermark argument. -/
def StreamClient.init (apiUrl apiToken accountId : String) : StreamClient :=
  { apiUrl := rstripSlash apiUrl, apiToken := apiToken, accountId := accountId,
    hasResponse := false, connected := false, lastUpdatedAt := none,
    reconnectDelay := STREAM_RECONNECT_MIN_DELAY, shouldStop := false }

/-- The keyword parameters accepted by `NavirecStreamClient.__init__`
(`api.py` lines 194-200), excluding `self`. -/
def streamClientInitKeywords : List String :=
  ["api_url", "api_token", "session", "account_id"]

/-- The keyword arguments the coordinator's `_async_stream_loop` passes when
constructing the stream client (`coordinator.py` lines 118-124). -/
def coordinatorStreamCallKeywords : List String :=
  ["api_url", "api_token", "session", "account_id", "initial_watermark"]

/-- Python keyword-call binding: a call binds successfully exactly when every
keyword argument names an accepted parameter (no `**kwargs` in the
signature); otherwise the call raises `TypeError`. -/
def acceptsCallKeywords (params call : List String) : Bool :=
  call.all fun k => params.contains k

/-- Outcome classes of `async_connect` failure. -/
inductive ConnectError where
  | auth
  | rateLimit (retryAfter : Nat)
  | comm
deriving DecidableEq, Repr

/-- `NavirecStreamClient.async_connect`, classified by the HTTP status of the
stream response and the optional numeric `Retry-After` header: 401/403 raise
the authentication error; 429 raises the rate-limit error carrying the
header value or 60 when absent; `raise_for_status` turns any status ≥ 400
into an `aiohttp` client error, re-raised as the communication error; any
remaining status marks the client connected, resets the reconnect delay to
the floor and keeps the response for iteration. -/
def async_connect (s : StreamClient) (status : Nat) (retryAfter : Option Nat) :
    Except ConnectError StreamClient :=
  if status = 401 ∨ status = 403 then
    Except.error ConnectError.auth
  else if status = 429 then
    Except.error (ConnectError.rateLimit (retryAfter.getD 60))
  else if 400 ≤ status then
    Except.error ConnectError.comm
  else
    Except.ok { s with hasResponse := true, connected := true,
                       reconnectDelay := STREAM_RECONNECT_MIN_DELAY }

/-- `NavirecStreamClient.get_reconnect_delay`: return the current delay and
multiply it for next time, clamped at the maximum. -/
def get_reconnect_delay (s : StreamClient) : Nat × StreamClient :=
  let next := min (s.reconnectDelay * STREAM_RECONNECT_MULTIPLIER)
    STREAM_RECONNECT_MAX_DELAY
  (s.reconnectDelay, { s with reconnectDelay := next })

/-- `NavirecStreamClient.reset_reconnect_delay`: back to the floor. -/
def reset_reconnect_delay (s : StreamClient) : StreamClient :=
  { s with reconnectDelay := STREAM_RECONNECT_MIN_DELAY }

/-- The values returned by `n` successive `get_reconnect_delay` calls. -/
def reconnectDelays (s : StreamClient) : Nat → List Nat
  | 0 => []
  | n + 1 =>
      let p := get_reconnect_delay s
      p.1 :: reconnectDelays p.2 n

/- Section:
Stream body iteration, from `api.py` `async_iter_events`.
A raw body line is, after `strip()`, blank, malformed (rejected by
`json.loads`), or a valid JSON object; the JSON decoder is the standard
library, so a line's decode outcome is modelled as its tag.
--------------------------------------------------------------------- -/

/-- One line of the response body, classified by its decode outcome. -/
inductive RawLine where
  | blank
  | malformed (text : String)
  | valid (ev : StreamEvent)
deriving DecidableEq, Repr

/-- Result of iterating a finite body: the yielded events and the client
state after the iterator finishes (the `finally` clause clears
`_connected`). -/
structure IterResult where
  events : List StreamEvent
  client : StreamClient
deriving DecidableEq, Repr

/-- The `updated_at` tracking inside the line loop: a decoded `vehicle_state`
event whose data carries `updated_at` refreshes `_last_updated_at`. -/
def trackUpdatedAt (s : StreamClient) (ev : StreamEvent) : StreamClient :=
  if ev.event = some "vehicle_state" then
    match jLookup "updated_at" ev.data with
    | some u => { s with lastUpdatedAt := some u }
    | none => s
  else s

/-- The line loop of `async_iter_events`: stop when `_should_stop` is set,
skip blank lines, skip lines that fail to decode, track `_last_updated_at`
from `vehicle_state` events carrying `updated_at`, and yield each decoded
event; on exhaustion the `finally` clause marks the client not connected. -/
def iterGo (s : StreamClient) : List RawLine → IterResult
  | [] => { events := [], client := { s with connected := false } }
  | line :: rest =>
      if s.shouldStop then
        { events := [], client := { s with connected := false } }
      else
        match line with
        | RawLine.blank => iterGo s rest
        | RawLine.malformed _ => iterGo s rest
        | RawLine.valid ev =>
            let r := iterGo (trackUpdatedAt s ev) rest
            { r with events := ev :: r.events }

/-- `NavirecStreamClient.async_iter_events` over a finite body: raises the
generic client error when no response is held, otherwise runs the line
loop. -/
def async_iter_events (s : StreamClient) (body : List RawLine) :
    Except String IterResult :=
  if s.hasResponse then Except.ok (iterGo s body)
  else Except.error "Stream not connected"

/-- The list of events yielded by a successful iteration, `none` when the
iterator raises. -/
def iterYields (s : StreamClient) (body : List RawLine) :
    Option (List StreamEvent) :=
  match async_iter_events s body with
  | Except.ok r => some r.events
  | Except.error _ => none

/- Section:
Command polling, from `commands.py` `_poll_command_status`.
The constants `COMMAND_POLL_INITIAL_DELAY`, `COMMAND_POLL_BACKOFF_FACTOR`,
`COMMAND_POLL_MAX_DELAY` and `COMMAND_TERMINAL_STATES` are imported from
`const.py` but absent from it in the sources; modelled from the spec: the
delay "starts at a short initial value", grows "by a backoff factor
(clamped to a max)", and the terminal-state set is abstract, so all four
are parameters of the loop.
--------------------------------------------------------------------- -/

/-- The environment's answer to one GET poll: a transport/parse failure, or
a successfully parsed command carrying its `state`. -/
inductive PollStep where
  | getFail
  | getOk (state : String)
deriving DecidableEq, Repr

/-- A terminal emission of the polling loop (event + notification pair,
fired together). -/
inductive Emission where
  | expired
  | result (state : String)
deriving DecidableEq, Repr

/-- Observable outcome of running the polling loop against a finite script:
the emissions fired, the number of GET polls issued, the sleep delays used
in order, and whether the loop returned (`false` = script exhausted with the
loop still running). -/
structure PollOutcome where
  emissions : List Emission
  gets : Nat
  delays : List Nat
  finished : Bool
deriving DecidableEq, Repr

/-- `if expires_at and datetime.now(UTC) >= expires_at`: the expiry branch
is taken only when `expires_at` is present and `now` has reached it. -/
def expiresPast (expiresAt : Option Nat) (now : Nat) : Bool :=
  match expiresAt with
  | some t => t ≤ now
  | none => false

/-- Whether a poll step reports a state in the terminal set. -/
def stepTerminal (terminal : String → Bool) : PollStep → Bool
  | PollStep.getFail => false
  | PollStep.getOk st => terminal st

/-- `_poll_command_status`: each loop iteration first checks expiry (emitting
the synthetic `expired` result and returning, without any GET), then sleeps
the current delay and GETs the command status; a failure grows the delay
(clamped) and continues; a terminal state emits exactly one result and
returns; a non-terminal state grows the delay the same way and continues.
The script supplies, per iteration, the wall-clock at the expiry check and
the GET outcome. -/
def pollLoop (terminal : String → Bool) (factor maxDelay : Nat)
    (expiresAt : Option Nat) (delay : Nat) :
    List (Nat × PollStep) → PollOutcome
  | [] => { emissions := [], gets := 0, delays := [], finished := false }
  | (now, step) :: rest =>
      if expiresPast expiresAt now then
        { emissions := [Emission.expired], gets := 0, delays := [],
          finished := true }
      else
        match step with
        | PollStep.getFail =>
            let r := pollLoop terminal factor maxDelay expiresAt
              (min (delay * factor) maxDelay) rest
            { r with gets := r.gets + 1, delays := delay :: r.delays }
        | PollStep.getOk st =>
            if terminal st then
              { emissions := [Emission.result st], gets := 1,
                delays := [delay], finished := true }
            else
              let r := pollLoop terminal factor maxDelay expiresAt
                (min (delay * factor) maxDelay) rest
              { r with gets := r.gets + 1, delays := delay :: r.delays }

/- Section:
Shared helper lemmas.
--------------------------------------------------------------------- -/

theorem getKey_setKey_self (m : List (String × VehicleState)) (k : String)
    (v : VehicleState) : getKey (setKey m k v) k = some v := by
  induction m with
  | nil => simp [setKey, getKey]
  | cons hd tl ih =>
      obtain ⟨k0, v0⟩ := hd
      by_cases h : k0 = k
      · simp [setKey, getKey, h]
      · simp [setKey, getKey, h, ih]

theorem updateStreamState_data (c : Coord) (u : JVal) :
    (updateStreamState c u).data = c.data := by
  unfold updateStreamState
  split <;> rfl

theorem updateStreamState_notifications (c : Coord) (u : JVal) :
    (updateStreamState c u).notifications = c.notifications := by
  unfold updateStreamState
  split <;> rfl

/-- Clamped geometric growth commutes with one more multiplication step. -/
theorem min_mul_clamp (b M a : Nat) (ha : 1 ≤ a) :
    min (min b M * a) M = min (b * a) M := by
  rcases Nat.le_total b M with h | h
  · rw [Nat.min_eq_left h]
  · rw [Nat.min_eq_right h]
    have hMa : M ≤ M * a := Nat.le_mul_of_pos_right M (by omega)
    have hba : M ≤ b * a := le_trans h (Nat.le_mul_of_pos_right b (by omega))
    rw [Nat.min_eq_right hMa, Nat.min_eq_right hba]

/-- Invariant of the reconnect-delay iteration: from a delay of the clamped
form, the k-th returned value is the clamped geometric term. -/
theorem reconnectDelays_get (n : Nat) :
    ∀ (k : Nat) (s : StreamClient) (j : Nat),
      s.reconnectDelay = min (2 ^ j) 60 → k < n →
      (reconnectDelays s n).get? k = some (min (2 ^ (j + k)) 60) := by
  induction n with
  | zero => intro k s j _ hk; omega
  | succ n ih =>
      intro k s j hs hk
      match k with
      | 0 =>
          simp [reconnectDelays, get_reconnect_delay, hs]
      | k + 1 =>
          have hstep :
              (get_reconnect_delay s).2.reconnectDelay = min (2 ^ (j + 1)) 60 := by
            have h2 : min (min (2 ^ j) 60 * 2) 60 = min (2 ^ j * 2) 60 :=
              min_mul_clamp (2 ^ j) 60 2 (by omega)
            have hp : 2 ^ (j + 1) = 2 ^ j * 2 := pow_succ 2 j
            simp [get_reconnect_delay, STREAM_RECONNECT_MULTIPLIER,
              STREAM_RECONNECT_MAX_DELAY, hs, h2, hp]
          have := ih k (get_reconnect_delay s).2 (j + 1) hstep (by omega)
          simpa [reconnectDelays, Nat.add_assoc, Nat.add_comm 1 k] using this

theorem trackUpdatedAt_shouldStop (s : StreamClient) (ev : StreamEvent) :
    (trackUpdatedAt s ev).shouldStop = s.shouldStop := by
  unfold trackUpdatedAt
  split
  · split <;> rfl
  · rfl

/-- Dispatching a `vehicle_state` event with non-empty data and a resolvable
(non-empty) vehicle id stores the validated snapshot under that id. -/
theorem handleEvent_vehicle_state_get (c : Coord) (d : JObj) (V : String)
    (hd : d ≠ [])
    (hid : get_vehicle_id_from_state (VehicleState.model_validate d) = some V)
    (hV : V ≠ "") :
    (handleEvent c ⟨some "vehicle_state", d⟩).get_vehicle_state V
      = some (VehicleState.model_validate d) := by
  have ht :
      pyTruthyStr (get_vehicle_id_from_state (VehicleState.model_validate d))
        = true := by
    rw [hid]
    simp [pyTruthyStr, hV]
  unfold handleEvent
  simp only [hd, ne_eq, not_false_iff, if_true, ht, hid]
  cases hu : jLookup "updated_at" d <;>
    simp [hu, Coord.get_vehicle_state, updateStreamState_data,
      getKey_setKey_self, pyTruthyStr, hV]

/- Section:
Concrete fixtures for the end-to-end scenario claim.
--------------------------------------------------------------------- -/

/-- The `vehicle_state` data object of the spec's end-to-end scenario, with
its vehicle reference `".../vehicles/abc-123/"` as written there. -/
def scenarioData : JObj :=
  [("vehicle", JVal.s ".../vehicles/abc-123/"),
   ("updated_at", JVal.s "2025-01-01T00:00:00Z"),
   ("speed", JVal.n 42)]

/-- The scenario's three stream events in order. -/
def scenarioEvents : List StreamEvent :=
  [⟨some "connected", []⟩, ⟨some "vehicle_state", scenarioData⟩,
   ⟨some "heartbeat", []⟩]

/-- A UUID-shaped vehicle id (the one from the source's own docstring). -/
def scenarioUuid : String := "924da156-1a68-4fce-8da1-a196c9bf22be"

/-- The scenario data object with a UUID-shaped vehicle reference. -/
def scenarioDataUuid : JObj :=
  [("vehicle", JVal.s ("https://api.navirec.com/vehicles/" ++ scenarioUuid ++ "/")),
   ("updated_at", JVal.s "2025-01-01T00:00:00Z"),
   ("speed", JVal.n 42)]

/-- The scenario's three stream events with the UUID-shaped vehicle. -/
def scenarioEventsUuid : List StreamEvent :=
  [⟨some "connected", []⟩, ⟨some "vehicle_state", scenarioDataUuid⟩,
   ⟨some "heartbeat", []⟩]

/- Section:
Claim theorems.
--------------------------------------------------------------------- -/

/-- Claim C1: the claim that every iteration of `_async_stream_loop` successfully
constructs a fresh `NavirecStreamClient` bound to the coordinator's current
watermark cursor fails on the code: the loop passes the keyword argument
`initial_watermark`, which `NavirecStreamClient.__init__` does not accept
(the call raises `TypeError`), and the constructor unconditionally starts
with `_last_updated_at = None`, so no constructed client is ever bound to a
cursor. -/
theorem claim1_stream_client_never_bound_to_cursor :
    acceptsCallKeywords streamClientInitKeywords coordinatorStreamCallKeywords
        = false ∧
    ∀ u t a, (StreamClient.init u t a).lastUpdatedAt = none := by
  exact ⟨by decide, fun u t a => rfl⟩

/-- Claim C2 counterexample: running the scenario exactly as written, with vehicle
reference `".../vehicles/abc-123/"`, leaves the state table without any
entry for `"abc-123"` (the reference contains no UUID-shaped identifier, so
the record is dropped) and fires zero data-changed notifications, while the
watermark still advances; so the claim's conjunction is false at its own
input. -/
theorem claim2_counterexample :
    (handleEvents Coord.init scenarioEvents).get_vehicle_state "abc-123"
        = none ∧
    (handleEvents Coord.init scenarioEvents).notifications = 0 ∧
    (handleEvents Coord.init scenarioEvents).lastUpdatedAt
        = some (JVal.s "2025-01-01T00:00:00Z") := by
  exact ⟨rfl, rfl, rfl⟩

/-- Claim C2 as amended: for the same three-event scenario with a UUID-shaped
vehicle reference, the state table afterwards maps the extracted vehicle id
to the snapshot whose `speed` is 42, the watermark cursor equals
`"2025-01-01T00:00:00Z"` (and is persisted once), and exactly one
data-changed notification has fired. -/
theorem claim2_amended_scenario :
    (handleEvents Coord.init scenarioEventsUuid).get_vehicle_state scenarioUuid
        = some (VehicleState.model_validate scenarioDataUuid) ∧
    jLookup "speed" scenarioDataUuid = some (JVal.n 42) ∧
    (handleEvents Coord.init scenarioEventsUuid).notifications = 1 ∧
    (handleEvents Coord.init scenarioEventsUuid).lastUpdatedAt
        = some (JVal.s "2025-01-01T00:00:00Z") ∧
    (handleEvents Coord.init scenarioEventsUuid).storeSaves
        = [JVal.s "2025-01-01T00:00:00Z"] := by
  exact ⟨rfl, rfl, rfl, rfl, rfl⟩

/-- Claim C3: starting from a freshly constructed client or after a reset, the
k-th of n successive `get_reconnect_delay` values is
`min(floor * multiplier^k, max_delay)` — i.e. 1, 2, 4, 8, 16, 32, 60, 60, …
— and a `reset_reconnect_delay` returns the next value to the floor. -/
theorem claim3_reconnect_backoff (u t a : String) (s : StreamClient)
    (n k : Nat) (hk : k < n) :
    (reconnectDelays (StreamClient.init u t a) n).get? k
        = some (min (STREAM_RECONNECT_MIN_DELAY * STREAM_RECONNECT_MULTIPLIER ^ k)
            STREAM_RECONNECT_MAX_DELAY) ∧
    (reconnectDelays (reset_reconnect_delay s) n).get? k
        = some (min (STREAM_RECONNECT_MIN_DELAY * STREAM_RECONNECT_MULTIPLIER ^ k)
            STREAM_RECONNECT_MAX_DELAY) ∧
    (get_reconnect_delay (reset_reconnect_delay s)).1
        = STREAM_RECONNECT_MIN_DELAY := by
  refine ⟨?_, ?_, rfl⟩
  · have h := reconnectDelays_get n k (StreamClient.init u t a) 0 (by rfl) hk
    simpa [STREAM_RECONNECT_MIN_DELAY, STREAM_RECONNECT_MULTIPLIER,
      STREAM_RECONNECT_MAX_DELAY] using h
  · have h := reconnectDelays_get n k (reset_reconnect_delay s) 0 (by rfl) hk
    simpa [STREAM_RECONNECT_MIN_DELAY, STREAM_RECONNECT_MULTIPLIER,
      STREAM_RECONNECT_MAX_DELAY] using h

theorem claim3_witness :
    6 < 7 ∧
    (reconnectDelays (StreamClient.init "https://api.navirec.com/" "tok" "acc") 7).get? 6
        = some (min (STREAM_RECONNECT_MIN_DELAY * STREAM_RECONNECT_MULTIPLIER ^ 6)
            STREAM_RECONNECT_MAX_DELAY) := by
  refine ⟨by decide, ?_⟩
  exact (claim3_reconnect_backoff "https://api.navirec.com/" "tok" "acc"
    (StreamClient.init "x" "y" "z") 7 6 (by decide)).1

/-- Claim C6: a `vehicle_state` event for vehicle V followed by another for V
replaces the table entry wholesale: afterwards the entry equals the snapshot
validated from the second event's data alone, whatever the first carried. -/
theorem claim6_snapshot_wholesale_replacement (c : Coord) (d1 d2 : JObj)
    (V : String)
    (h1 : get_vehicle_id_from_state (VehicleState.model_validate d1) = some V)
    (h2 : get_vehicle_id_from_state (VehicleState.model_validate d2) = some V)
    (hV : V ≠ "") (hd1 : d1 ≠ []) (hd2 : d2 ≠ []) :
    (handleEvent (handleEvent c ⟨some "vehicle_state", d1⟩)
        ⟨some "vehicle_state", d2⟩).get_vehicle_state V
      = some (VehicleState.model_validate d2) :=
  handleEvent_vehicle_state_get _ d2 V hd2 h2 hV

theorem claim6_witness :
    get_vehicle_id_from_state (VehicleState.model_validate
        [("vehicle", JVal.s "https://x/vehicles/00000000-0000-0000-0000-000000000000/"),
         ("speed", JVal.n 1)])
      = some "00000000-0000-0000-0000-000000000000" ∧
    (handleEvent (handleEvent Coord.init
        ⟨some "vehicle_state",
         [("vehicle", JVal.s "https://x/vehicles/00000000-0000-0000-0000-000000000000/"),
          ("speed", JVal.n 1)]⟩)
        ⟨some "vehicle_state",
         [("vehicle", JVal.s "https://x/vehicles/00000000-0000-0000-0000-000000000000/"),
          ("fuel", JVal.n 2)]⟩).get_vehicle_state
        "00000000-0000-0000-0000-000000000000"
      = some (VehicleState.model_validate
          [("vehicle", JVal.s "https://x/vehicles/00000000-0000-0000-0000-000000000000/"),
           ("fuel", JVal.n 2)]) := by
  refine ⟨by rfl, ?_⟩
  exact claim6_snapshot_wholesale_replacement Coord.init
    [("vehicle", JVal.s "https://x/vehicles/00000000-0000-0000-0000-000000000000/"),
     ("speed", JVal.n 1)]
    [("vehicle", JVal.s "https://x/vehicles/00000000-0000-0000-0000-000000000000/"),
     ("fuel", JVal.n 2)]
    "00000000-0000-0000-0000-000000000000"
    (by rfl) (by rfl) (by decide) (by decide) (by decide)

/-- Claim C7: the watermark update writes the store exactly once per distinct
consecutive cursor value: a call whose value equals the cached value is a
no-op, and two consecutive calls with the same new value perform exactly one
underlying save. -/
theorem claim7_watermark_saved_once_per_distinct_value (c : Coord) (u : JVal) :
    (c.lastUpdatedAt = some u → updateStreamState c u = c) ∧
    (c.lastUpdatedAt ≠ some u →
      (updateStreamState (updateStreamState c u) u).storeSaves
          = c.storeSaves ++ [u] ∧
      (updateStreamState (updateStreamState c u) u).lastUpdatedAt = some u) := by
  constructor
  · intro h
    unfold updateStreamState
    rw [if_pos h]
  · intro h
    have h1 : updateStreamState c u
        = { c with lastUpdatedAt := some u, storeSaves := c.storeSaves ++ [u] } := by
      unfold updateStreamState
      rw [if_neg h]
    rw [h1]
    unfold updateStreamState
    rw [if_pos rfl]
    exact ⟨rfl, rfl⟩

theorem claim7_witness :
    Coord.init.lastUpdatedAt ≠ some (JVal.s "2025-01-01T00:00:00Z") ∧
    (updateStreamState (updateStreamState Coord.init
        (JVal.s "2025-01-01T00:00:00Z")) (JVal.s "2025-01-01T00:00:00Z")).storeSaves
      = Coord.init.storeSaves ++ [JVal.s "2025-01-01T00:00:00Z"] ∧
    updateStreamState
        { Coord.init with lastUpdatedAt := some (JVal.s "2025-01-01T00:00:00Z") }
        (JVal.s "2025-01-01T00:00:00Z")
      = { Coord.init with lastUpdatedAt := some (JVal.s "2025-01-01T00:00:00Z") } := by
  refine ⟨by decide, ?_, ?_⟩
  · exact ((claim7_watermark_saved_once_per_distinct_value Coord.init
      (JVal.s "2025-01-01T00:00:00Z")).2 (by decide)).1
  · exact (claim7_watermark_saved_once_per_distinct_value
      { Coord.init with lastUpdatedAt := some (JVal.s "2025-01-01T00:00:00Z") }
      (JVal.s "2025-01-01T00:00:00Z")).1 rfl

/-- Claim C9: a `vehicle_state` event with non-empty data carrying `updated_at`
but whose vehicle reference contains no UUID-shaped identifier leaves the
state table and the notification count unchanged, yet still advances the
watermark cursor to the event's `updated_at` and persists it. -/
theorem claim9_dropped_record_still_advances_watermark (c : Coord) (d : JObj)
    (url : String) (u : JVal)
    (hd : d ≠ [])
    (hv : jLookup "vehicle" d = some (JVal.s url))
    (hx : extract_uuid_from_url url = none)
    (hupd : jLookup "updated_at" d = some u)
    (hnew : c.lastUpdatedAt ≠ some u) :
    (handleEvent c ⟨some "vehicle_state", d⟩).data = c.data ∧
    (handleEvent c ⟨some "vehicle_state", d⟩).notifications = c.notifications ∧
    (handleEvent c ⟨some "vehicle_state", d⟩).lastUpdatedAt = some u ∧
    (handleEvent c ⟨some "vehicle_state", d⟩).storeSaves
        = c.storeSaves ++ [u] := by
  have hid : get_vehicle_id_from_state (VehicleState.model_validate d) = none := by
    unfold get_vehicle_id_from_state VehicleState.vehicleRef
      VehicleState.model_validate
    simp only [hv]
    by_cases hurl : url = "" <;> simp [hurl, hx]
  have hfalse :
      pyTruthyStr (get_vehicle_id_from_state (VehicleState.model_validate d))
        = false := by
    rw [hid]
    rfl
  unfold handleEvent
  simp only [hd, ne_eq, not_false_iff, if_true, hfalse, hupd]
  simp [updateStreamState, hnew]

theorem claim9_witness :
    ([("vehicle", JVal.s ".../vehicles/abc-123/"),
      ("updated_at", JVal.s "2025-01-01T00:00:00Z")] : JObj) ≠ [] ∧
    extract_uuid_from_url ".../vehicles/abc-123/" = none ∧
    (handleEvent Coord.init
        ⟨some "vehicle_state",
         [("vehicle", JVal.s ".../vehicles/abc-123/"),
          ("updated_at", JVal.s "2025-01-01T00:00:00Z")]⟩).data = Coord.init.data ∧
    (handleEvent Coord.init
        ⟨some "vehicle_state",
         [("vehicle", JVal.s ".../vehicles/abc-123/"),
          ("updated_at", JVal.s "2025-01-01T00:00:00Z")]⟩).lastUpdatedAt
      = some (JVal.s "2025-01-01T00:00:00Z") := by
  refine ⟨by decide, by rfl, ?_⟩
  have h := claim9_dropped_record_still_advances_watermark Coord.init
    [("vehicle", JVal.s ".../vehicles/abc-123/"),
     ("updated_at", JVal.s "2025-01-01T00:00:00Z")]
    ".../vehicles/abc-123/" (JVal.s "2025-01-01T00:00:00Z")
    (by decide) (by rfl) (by rfl) (by rfl) (by decide)
  exact ⟨h.1, h.2.2.1⟩

/-- Claim C4 counterexample: status 300 is not a 2xx status and is none of
401/403/429, yet `async_connect` does not raise a communication-class error
there — `raise_for_status` only rejects statuses ≥ 400 — so the connection
is treated as successful (connected set, delay reset). -/
theorem claim4_counterexample :
    ((299 : Nat) < 300 ∧ (300 : Nat) < 400 ∧ (300 : Nat) ≠ 401 ∧
      (300 : Nat) ≠ 403 ∧ (300 : Nat) ≠ 429) ∧
    async_connect (StreamClient.init "https://api.navirec.com/" "tok" "acc")
        300 none
      = Except.ok { StreamClient.init "https://api.navirec.com/" "tok" "acc" with
                    hasResponse := true, connected := true } := by
  exact ⟨by decide, rfl⟩

/-- Claim C4 as amended: `async_connect` classifies by status — 401/403 raise the
authentication error; 429 raises the rate-limit error carrying the
`Retry-After` value, or 60 when the header is absent; any other status ≥ 400
raises a communication-class error; and any status < 400 (not only 2xx,
since `raise_for_status` rejects only statuses ≥ 400) marks the client
connected and resets the reconnect delay to the floor. -/
theorem claim4_connect_classification (s : StreamClient) (status : Nat)
    (hdr : Option Nat) :
    ((status = 401 ∨ status = 403) →
        async_connect s status hdr = Except.error ConnectError.auth) ∧
    (status = 429 → ∀ r, hdr = some r →
        async_connect s status hdr = Except.error (ConnectError.rateLimit r)) ∧
    (status = 429 → hdr = none →
        async_connect s status hdr = Except.error (ConnectError.rateLimit 60)) ∧
    (status ≠ 401 → status ≠ 403 → status ≠ 429 → 400 ≤ status →
        async_connect s status hdr = Except.error ConnectError.comm) ∧
    (status < 400 →
        async_connect s status hdr
          = Except.ok { s with
                        hasResponse := true, connected := true,
                        reconnectDelay := STREAM_RECONNECT_MIN_DELAY }) := by
  refine ⟨?_, ?_, ?_, ?_, ?_⟩
  · intro h
    unfold async_connect
    rw [if_pos h]
  · intro h429 r hr
    subst h429
    subst hr
    unfold async_connect
    rw [if_neg (by omega), if_pos rfl]
    rfl
  · intro h429 hr
    subst h429
    subst hr
    unfold async_connect
    rw [if_neg (by omega), if_pos rfl]
    rfl
  · intro h1 h2 h3 h4
    unfold async_connect
    rw [if_neg (by omega), if_neg h3, if_pos h4]
  · intro h
    unfold async_connect
    rw [if_neg (by omega), if_neg (by omega), if_neg (by omega)]

theorem claim4_witness :
    ((401 : Nat) = 401 ∨ (401 : Nat) = 403) ∧
    async_connect (StreamClient.init "u" "t" "a") 401 none
        = Except.error ConnectError.auth ∧
    async_connect (StreamClient.init "u" "t" "a") 429 (some 30)
        = Except.error (ConnectError.rateLimit 30) ∧
    async_connect (StreamClient.init "u" "t" "a") 429 none
        = Except.error (ConnectError.rateLimit 60) ∧
    async_connect (StreamClient.init "u" "t" "a") 500 none
        = Except.error ConnectError.comm ∧
    async_connect (StreamClient.init "u" "t" "a") 200 none
        = Except.ok { StreamClient.init "u" "t" "a" with
                      hasResponse := true, connected := true,
                      reconnectDelay := STREAM_RECONNECT_MIN_DELAY } := by
  refine ⟨Or.inl rfl, ?_, ?_, ?_, ?_, ?_⟩
  · exact (claim4_connect_classification (StreamClient.init "u" "t" "a")
      401 none).1 (Or.inl rfl)
  · exact (claim4_connect_classification (StreamClient.init "u" "t" "a")
      429 (some 30)).2.1 rfl 30 rfl
  · exact (claim4_connect_classification (StreamClient.init "u" "t" "a")
      429 none).2.2.1 rfl rfl
  · exact (claim4_connect_classification (StreamClient.init "u" "t" "a")
      500 none).2.2.2.1 (by decide) (by decide) (by decide) (by decide)
  · exact (claim4_connect_classification (StreamClient.init "u" "t" "a")
      200 none).2.2.2.2 (by decide)

/-- Claim C5: a body of a valid JSON line, then a malformed (non-blank, non-JSON)
line, then a valid JSON line yields exactly the two decoded objects in their
original order; the malformed line is skipped without ending the iteration
or raising. -/
theorem claim5_malformed_line_skipped (s : StreamClient) (txt : String)
    (v1 v2 : StreamEvent) (hresp : s.hasResponse = true)
    (hstop : s.shouldStop = false) :
    iterYields s [RawLine.valid v1, RawLine.malformed txt, RawLine.valid v2]
      = some [v1, v2] := by
  have hstop1 : (trackUpdatedAt s v1).shouldStop = false := by
    rw [trackUpdatedAt_shouldStop]
    exact hstop
  have hstop2 : (trackUpdatedAt (trackUpdatedAt s v1) v2).shouldStop = false := by
    rw [trackUpdatedAt_shouldStop]
    exact hstop1
  unfold iterYields async_iter_events
  simp [hresp, iterGo, hstop, hstop1, hstop2]

theorem claim5_witness :
    (StreamClient.init "u" "t" "a" : StreamClient).hasResponse = false ∧
    ({ StreamClient.init "u" "t" "a" with hasResponse := true }).hasResponse
        = true ∧
    ({ StreamClient.init "u" "t" "a" with hasResponse := true }).shouldStop
        = false ∧
    iterYields { StreamClient.init "u" "t" "a" with hasResponse := true }
        [RawLine.valid ⟨some "heartbeat", []⟩,
         RawLine.malformed "not json",
         RawLine.valid ⟨some "connected", []⟩]
      = some [⟨some "heartbeat", []⟩, ⟨some "connected", []⟩] := by
  refine ⟨rfl, rfl, rfl, ?_⟩
  exact claim5_malformed_line_skipped
    { StreamClient.init "u" "t" "a" with hasResponse := true }
    "not json" ⟨some "heartbeat", []⟩ ⟨some "connected", []⟩ rfl rfl

/- Section:
Helper lemmas about the command polling loop.
--------------------------------------------------------------------- -/

theorem pollLoop_emissions_at_most_one (terminal : String → Bool)
    (f M : Nat) : ∀ (script : List (Nat × PollStep)) (ea : Option Nat) (d : Nat),
    (pollLoop terminal f M ea d script).emissions.length ≤ 1 ∧
    ((pollLoop terminal f M ea d script).finished = true →
      (pollLoop terminal f M ea d script).emissions.length = 1) := by
  intro script
  induction script with
  | nil => intro ea d; simp [pollLoop]
  | cons hd tl ih =>
      intro ea d
      obtain ⟨now, step⟩ := hd
      by_cases hexp : expiresPast ea now = true
      · simp [pollLoop, hexp]
      · rw [Bool.not_eq_true] at hexp
        cases step with
        | getFail => simpa [pollLoop, hexp] using ih ea (min (d * f) M)
        | getOk st =>
            by_cases ht : terminal st = true
            · simp [pollLoop, hexp, ht]
            · rw [Bool.not_eq_true] at ht
              simpa [pollLoop, hexp, ht] using ih ea (min (d * f) M)

theorem pollLoop_failures_no_emission (terminal : String → Bool)
    (f M : Nat) (hf : 1 ≤ f) :
    ∀ (script : List (Nat × PollStep)) (ea : Option Nat) (d : Nat), d ≤ M →
    (∀ p ∈ script, p.2 = PollStep.getFail ∧ expiresPast ea p.1 = false) →
    (pollLoop terminal f M ea d script).emissions = [] ∧
    (pollLoop terminal f M ea d script).finished = false ∧
    ∀ k, k < script.length →
      (pollLoop terminal f M ea d script).delays.get? k
        = some (min (d * f ^ k) M) := by
  intro script
  induction script with
  | nil =>
      intro ea d hdM hall
      refine ⟨rfl, rfl, ?_⟩
      intro k hk
      simp at hk
  | cons hd tl ih =>
      intro ea d hdM hall
      obtain ⟨now, step⟩ := hd
      have hhd := hall (now, step) (List.mem_cons_self _ _)
      have hstep : step = PollStep.getFail := hhd.1
      have hexp : expiresPast ea now = false := hhd.2
      subst hstep
      have ihtl := ih ea (min (d * f) M) (Nat.min_le_right _ _)
        (fun p hp => hall p (List.mem_cons_of_mem _ hp))
      refine ⟨?_, ?_, ?_⟩
      · simpa [pollLoop, hexp] using ihtl.1
      · simpa [pollLoop, hexp] using ihtl.2.1
      · intro k hk
        match k with
        | 0 =>
            simp [pollLoop, hexp, Nat.min_eq_left hdM]
        | k + 1 =>
            have hk' : k < tl.length := by
              simpa using Nat.lt_of_succ_lt_succ hk
            have hrec := ihtl.2.2 k hk'
            have hfk : 1 ≤ f ^ k := Nat.one_le_pow k f (by omega)
            have hmul : d * f * f ^ k = d * f ^ (k + 1) := by ring
            have hclamp : min (min (d * f) M * f ^ k) M = min (d * f ^ (k + 1)) M := by
              rw [min_mul_clamp (d * f) M (f ^ k) hfk, hmul]
            simp only [pollLoop, hexp, Bool.false_eq_true, if_false,
              List.get?_cons_succ]
            rw [hrec, hclamp]

theorem pollLoop_none_never_expired (terminal : String → Bool) (f M : Nat) :
    ∀ (script : List (Nat × PollStep)) (d : Nat),
    Emission.expired ∉ (pollLoop terminal f M none d script).emissions := by
  intro script
  induction script with
  | nil => intro d; simp [pollLoop]
  | cons hd tl ih =>
      intro d
      obtain ⟨now, step⟩ := hd
      have hexp : expiresPast (none : Option Nat) now = false := rfl
      cases step with
      | getFail => simpa [pollLoop, hexp] using ih (min (d * f) M)
      | getOk st =>
          by_cases ht : terminal st = true
          · simp [pollLoop, hexp, ht]
          · rw [Bool.not_eq_true] at ht
            simpa [pollLoop, hexp, ht] using ih (min (d * f) M)

theorem pollLoop_nonterminal_keeps_polling (terminal : String → Bool)
    (f M : Nat) : ∀ (script : List (Nat × PollStep)) (d : Nat),
    (∀ p ∈ script, stepTerminal terminal p.2 = false) →
    (pollLoop terminal f M none d script).emissions = [] ∧
    (pollLoop terminal f M none d script).finished = false ∧
    (pollLoop terminal f M none d script).gets = script.length := by
  intro script
  induction script with
  | nil => intro d _; exact ⟨rfl, rfl, rfl⟩
  | cons hd tl ih =>
      intro d hall
      obtain ⟨now, step⟩ := hd
      have hexp : expiresPast (none : Option Nat) now = false := rfl
      have hhd := hall (now, step) (List.mem_cons_self _ _)
      have ihtl := ih (min (d * f) M)
        (fun p hp => hall p (List.mem_cons_of_mem _ hp))
      cases step with
      | getFail =>
          refine ⟨?_, ?_, ?_⟩ <;>
            simp [pollLoop, hexp, ihtl.1, ihtl.2.1, ihtl.2.2]
      | getOk st =>
          have ht : terminal st = false := by simpa [stepTerminal] using hhd
          refine ⟨?_, ?_, ?_⟩ <;>
            simp [pollLoop, hexp, ht, ihtl.1, ihtl.2.1, ihtl.2.2]

theorem pollLoop_first_terminal_stops (terminal : String → Bool) (f M : Nat) :
    ∀ (pre : List (Nat × PollStep)) (ea : Option Nat) (d now : Nat)
      (st : String) (rest : List (Nat × PollStep)),
    (∀ p ∈ pre, expiresPast ea p.1 = false ∧
      stepTerminal terminal p.2 = false) →
    expiresPast ea now = false → terminal st = true →
    (pollLoop terminal f M ea d
        (pre ++ (now, PollStep.getOk st) :: rest)).emissions
      = [Emission.result st] ∧
    (pollLoop terminal f M ea d
        (pre ++ (now, PollStep.getOk st) :: rest)).finished = true ∧
    (pollLoop terminal f M ea d
        (pre ++ (now, PollStep.getOk st) :: rest)).gets = pre.length + 1 := by
  intro pre
  induction pre with
  | nil =>
      intro ea d now st rest hall hexp ht
      simp [pollLoop, hexp, ht]
  | cons hd tl ih =>
      intro ea d now st rest hall hexp ht
      obtain ⟨n0, s0⟩ := hd
      have hhd := hall (n0, s0) (List.mem_cons_self _ _)
      have ihtl := ih ea (min (d * f) M) now st rest
        (fun p hp => hall p (List.mem_cons_of_mem _ hp)) hexp ht
      cases s0 with
      | getFail =>
          refine ⟨?_, ?_, ?_⟩ <;>
            simp [pollLoop, hhd.1, ihtl.1, ihtl.2.1, ihtl.2.2]
      | getOk s =>
          have hs : terminal s = false := by simpa [stepTerminal] using hhd.2
          refine ⟨?_, ?_, ?_⟩ <;>
            simp [pollLoop, hhd.1, hs, ihtl.1, ihtl.2.1, ihtl.2.2]

/- Section:
Claims C8 and C10.
--------------------------------------------------------------------- -/

/-- Claim C8: the polling loop emits exactly one terminal result — when
`expires_at` is already past at the first expiry check, exactly one
synthetic `expired` result with no GET ever issued; in general at most one
emission, and exactly one whenever the loop returns; a run of transient
GET failures produces no emission while the poll delay grows geometrically,
clamped at the maximum; and when, after any run of non-expired iterations
none of which reports a terminal state, a GET first reports a state in the
terminal set, exactly one result carrying that reported state is emitted,
the loop returns, and it has issued exactly one GET per executed iteration
— whatever script would have followed is never consumed. The poll constants
are parameters because `COMMAND_POLL_INITIAL_DELAY`,
`COMMAND_POLL_BACKOFF_FACTOR`, `COMMAND_POLL_MAX_DELAY` and
`COMMAND_TERMINAL_STATES` are absent from the sources' `const.py`. -/
theorem claim8_exactly_one_terminal_emission :
    (∀ (terminal : String → Bool) (f M e now d : Nat) (step : PollStep)
        (rest : List (Nat × PollStep)), e ≤ now →
        pollLoop terminal f M (some e) d ((now, step) :: rest)
          = { emissions := [Emission.expired], gets := 0, delays := [],
              finished := true }) ∧
    (∀ (terminal : String → Bool) (f M : Nat) (ea : Option Nat) (d : Nat)
        (script : List (Nat × PollStep)),
        (pollLoop terminal f M ea d script).emissions.length ≤ 1 ∧
        ((pollLoop terminal f M ea d script).finished = true →
          (pollLoop terminal f M ea d script).emissions.length = 1)) ∧
    (∀ (terminal : String → Bool) (f M : Nat) (ea : Option Nat) (d : Nat)
        (script : List (Nat × PollStep)), 1 ≤ f → d ≤ M →
        (∀ p ∈ script, p.2 = PollStep.getFail ∧ expiresPast ea p.1 = false) →
        (pollLoop terminal f M ea d script).emissions = [] ∧
        (pollLoop terminal f M ea d script).finished = false ∧
        ∀ k, k < script.length →
          (pollLoop terminal f M ea d script).delays.get? k
            = some (min (d * f ^ k) M)) ∧
    (∀ (terminal : String → Bool) (f M : Nat) (ea : Option Nat) (d : Nat)
        (pre : List (Nat × PollStep)) (now : Nat) (st : String)
        (rest : List (Nat × PollStep)),
        (∀ p ∈ pre, expiresPast ea p.1 = false ∧
          stepTerminal terminal p.2 = false) →
        expiresPast ea now = false → terminal st = true →
        (pollLoop terminal f M ea d
            (pre ++ (now, PollStep.getOk st) :: rest)).emissions
          = [Emission.result st] ∧
        (pollLoop terminal f M ea d
            (pre ++ (now, PollStep.getOk st) :: rest)).finished = true ∧
        (pollLoop terminal f M ea d
            (pre ++ (now, PollStep.getOk st) :: rest)).gets
          = pre.length + 1) := by
  refine ⟨?_, ?_, ?_, ?_⟩
  · intro terminal f M e now d step rest h
    have hexp : expiresPast (some e) now = true := by
      simp [expiresPast, h]
    simp [pollLoop, hexp]
  · intro terminal f M ea d script
    exact pollLoop_emissions_at_most_one terminal f M script ea d
  · intro terminal f M ea d script hf hdM hall
    exact pollLoop_failures_no_emission terminal f M hf script ea d hdM hall
  · intro terminal f M ea d pre now st rest hall hexp ht
    exact pollLoop_first_terminal_stops terminal f M pre ea d now st rest
      hall hexp ht

theorem claim8_witness :
    (10 : Nat) ≤ 10 ∧
    pollLoop (fun st => st = "acknowledged") 2 60 (some 10) 1
        [(10, PollStep.getFail), (11, PollStep.getFail)]
      = { emissions := [Emission.expired], gets := 0, delays := [],
          finished := true } ∧
    (1 : Nat) ≤ 2 ∧ (1 : Nat) ≤ 60 ∧
    (pollLoop (fun st => st = "acknowledged") 2 60 none 1
        [(0, PollStep.getFail), (1, PollStep.getFail), (2, PollStep.getFail)]).emissions
      = [] ∧
    (pollLoop (fun st => st = "acknowledged") 2 60 none 1
        [(0, PollStep.getFail), (1, PollStep.getFail), (2, PollStep.getFail)]).delays.get? 2
      = some (min (1 * 2 ^ 2) 60) ∧
    ((fun st => st = "acknowledged") "acknowledged" : Bool) = true ∧
    (pollLoop (fun st => st = "acknowledged") 2 60 none 1
        [(0, PollStep.getFail), (1, PollStep.getOk "pending"),
         (2, PollStep.getOk "acknowledged"), (3, PollStep.getFail)]).emissions
      = [Emission.result "acknowledged"] ∧
    (pollLoop (fun st => st = "acknowledged") 2 60 none 1
        [(0, PollStep.getFail), (1, PollStep.getOk "pending"),
         (2, PollStep.getOk "acknowledged"), (3, PollStep.getFail)]).finished
      = true ∧
    (pollLoop (fun st => st = "acknowledged") 2 60 none 1
        [(0, PollStep.getFail), (1, PollStep.getOk "pending"),
         (2, PollStep.getOk "acknowledged"), (3, PollStep.getFail)]).gets
      = 3 := by
  have hterm := claim8_exactly_one_terminal_emission.2.2.2
    (fun st => st = "acknowledged") 2 60 none 1
    [(0, PollStep.getFail), (1, PollStep.getOk "pending")] 2 "acknowledged"
    [(3, PollStep.getFail)]
    (by intro p hp; fin_cases hp <;> exact ⟨rfl, rfl⟩) rfl (by decide)
  refine ⟨by decide, ?_, by decide, by decide, ?_, ?_, by decide,
    hterm.1, hterm.2.1, hterm.2.2⟩
  · exact claim8_exactly_one_terminal_emission.1
      (fun st => st = "acknowledged") 2 60 10 10 1 PollStep.getFail
      [(11, PollStep.getFail)] (by decide)
  · exact (claim8_exactly_one_terminal_emission.2.2.1
      (fun st => st = "acknowledged") 2 60 none 1
      [(0, PollStep.getFail), (1, PollStep.getFail), (2, PollStep.getFail)]
      (by decide) (by decide) (by intro p hp; fin_cases hp <;> exact ⟨rfl, rfl⟩)).1
  · exact (claim8_exactly_one_terminal_emission.2.2.1
      (fun st => st = "acknowledged") 2 60 none 1
      [(0, PollStep.getFail), (1, PollStep.getFail), (2, PollStep.getFail)]
      (by decide) (by decide)
      (by intro p hp; fin_cases hp <;> exact ⟨rfl, rfl⟩)).2.2 2 (by decide)

/-- Claim C10: with `expires_at` absent (`None`), the expiry branch is never taken
— no `expired` result is ever emitted — and while the server keeps reporting
non-terminal states the loop keeps polling indefinitely (one GET per
iteration, no emission, never returning). -/
theorem claim10_no_expiry_without_deadline :
    (∀ (terminal : String → Bool) (f M d : Nat)
        (script : List (Nat × PollStep)),
        Emission.expired ∉ (pollLoop terminal f M none d script).emissions) ∧
    (∀ (terminal : String → Bool) (f M d : Nat)
        (script : List (Nat × PollStep)),
        (∀ p ∈ script, stepTerminal terminal p.2 = false) →
        (pollLoop terminal f M none d script).emissions = [] ∧
        (pollLoop terminal f M none d script).finished = false ∧
        (pollLoop terminal f M none d script).gets = script.length) := by
  constructor
  · intro terminal f M d script
    exact pollLoop_none_never_expired terminal f M script d
  · intro terminal f M d script hall
    exact pollLoop_nonterminal_keeps_polling terminal f M script d hall

theorem claim10_witness :
    Emission.expired ∉ (pollLoop (fun st => st = "acknowledged") 2 60 none 1
        [(0, PollStep.getFail), (1, PollStep.getOk "pending")]).emissions ∧
    (pollLoop (fun st => st = "acknowledged") 2 60 none 1
        [(0, PollStep.getFail), (1, PollStep.getOk "pending")]).gets = 2 := by
  constructor
  · exact claim10_no_expiry_without_deadline.1
      (fun st => st = "acknowledged") 2 60 1
      [(0, PollStep.getFail), (1, PollStep.getOk "pending")]
  · exact (claim10_no_expiry_without_deadline.2
      (fun st => st = "acknowledged") 2 60 1
      [(0, PollStep.getFail), (1, PollStep.getOk "pending")]
      (by intro p hp; fin_cases hp <;> simp [stepTerminal])).2.2

end Navirec
